import Mathlib

/-
Verification of the qtmonaco bridge (src/qtmonaco/monaco.py) against its
natural-language specification.

The file shallowly embeds the Python module: Python runtime values become the
inductive type PyValue, a Monaco instance becomes the structure MonacoState,
each method becomes a Lean function from a state and its arguments to either a
raised Python exception (Except.error) or an Effect recording the new state,
the commands pushed through the Connector transport, the Qt signal emissions,
and the printed warnings.  The Connector itself, the Qt classes and the
pylsp_provider module are not part of the sources here; the transport is
modelled as the recorded command list and the language-server collaborator is
modelled from the spec (see PylspServer below).
-/

/-- Python runtime values, covering everything json.loads can produce plus the
values held by the instance fields of the Monaco class.  IEEE floating point
numbers are not modelled: a JSON float keeps its literal text in floatRaw and
is never interpreted arithmetically (no claim involves float payloads). -/
inductive PyValue where
  | none
  | bool (b : Bool)
  | int (n : Int)
  | str (s : String)
  | floatRaw (lit : String)
  | list (xs : List PyValue)
  | dict (kvs : List (String × PyValue))
deriving Repr

mutual

/-- Python equality (the == and != operators) on PyValue, structural.  The
Python cross-type numeric identifications (True == 1, 1.0 == 1) are not
modelled; every place this is used in the embedding compares values of the
same constructor shape.  Dicts are kept as ordered association lists. -/
def pyEq : PyValue → PyValue → Bool
  | .none, .none => true
  | .bool a, .bool b => a == b
  | .int a, .int b => a == b
  | .str a, .str b => a == b
  | .floatRaw a, .floatRaw b => a == b
  | .list xs, .list ys => pyEqL xs ys
  | .dict xs, .dict ys => pyEqD xs ys
  | _, _ => false

/-- Elementwise pyEq on lists. -/
def pyEqL : List PyValue → List PyValue → Bool
  | [], [] => true
  | x :: xs, y :: ys => pyEq x y && pyEqL xs ys
  | _, _ => false

/-- Pairwise pyEq on association lists. -/
def pyEqD : List (String × PyValue) → List (String × PyValue) → Bool
  | [], [] => true
  | (k, v) :: xs, (k2, v2) :: ys => k == k2 && pyEq v v2 && pyEqD xs ys
  | _, _ => false

end

/-- Python truthiness, as used by a bare if on a value.  Float literals are
conservatively treated as truthy; the embedding never branches on a float. -/
def pyTruthy : PyValue → Bool
  | .none => false
  | .bool b => b
  | .int n => n != 0
  | .str s => s != ""
  | .floatRaw _ => true
  | .list xs => !xs.isEmpty
  | .dict kvs => !kvs.isEmpty

/-- Python identity test against the None singleton (the is None operator). -/
def isNone : PyValue → Bool
  | .none => true
  | _ => false

/-- Python isinstance(v, str). -/
def isStr : PyValue → Bool
  | .str _ => true
  | _ => false

/-- Python exceptions raised by the embedded module.  The spec names these
InvalidState and InvalidArgument (both ValueError in the source), TypeMismatch
(TypeError) and MalformedPayload (json.JSONDecodeError). -/
inductive PyError where
  | valueError (msg : String)
  | typeError (msg : String)
  | jsonDecodeError
  | attributeError (msg : String)
deriving Repr, DecidableEq

/-- An outbound command handed to Connector.send: a name and a payload. -/
structure Command where
  name : String
  payload : PyValue
deriving Repr

/-- Qt signal emissions of the Monaco class. -/
inductive QtSignal where
  | initialized
  | text_changed (v : PyValue)
  | language_changed (v : PyValue)
  | theme_changed (v : PyValue)
deriving Repr

/-- Modelled from the spec: the external language-server collaborator
(qtmonaco.pylsp_provider.pylsp_server), whose module is not among the sources
here.  The spec describes it as exposing is_running() → bool, start() → void
(idempotent, a start while running is a no-op) and port → int, with the
address resolved as "localhost:" followed by the port. -/
structure PylspServer where
  running : Bool
  port : Nat
deriving Repr, DecidableEq

/-- Collaborator query is_running(). -/
def PylspServer.is_running (s : PylspServer) : Bool := s.running

/-- Collaborator start(): begins serving; the reported port is unchanged. -/
def PylspServer.start (s : PylspServer) : PylspServer := { s with running := true }

/-- Instance state of a Monaco object.  The first nine fields are the mirror
fields set in __init__; each holds a PyValue because the dynamic setattr
fallback of on_new_data_received can store arbitrary JSON values in any of
them.  The last two fields are not Python instance attributes (so no inbound
name reaches them): pylsp_server captures the module global collaborator of
qtmonaco.pylsp_provider that get_pylsp_host reads, and init_connections
counts how many times the constructor has connected the initialized signal
to the _set_host slot (once per constructor run, so once on a fresh bridge
and one more per constructor re-entry through the inbound __init__ event);
each emit of the signal runs every connected slot once. -/
structure MonacoState where
  pylsp_host : PyValue
  value : PyValue
  language : PyValue
  theme : PyValue
  readonly : PyValue
  current_cursor : PyValue
  initialized : PyValue
  lsp_header : PyValue
  buffer : PyValue
  pylsp_server : PylspServer
  init_connections : Nat
deriving Repr

/-- Observable result of one Python call that did not raise: the state after
the call, the commands sent over the transport (in order), the signals
emitted (in order) and the warnings printed. -/
structure Effect where
  state : MonacoState
  commands : List Command
  signals : List QtSignal
  warnings : List String
deriving Repr

/-- Effect of a call that returned without sending, emitting or printing. -/
def Effect.pure (st : MonacoState) : Effect :=
  { state := st, commands := [], signals := [], warnings := [] }

/-- Projection of a call result to its Effect.  A raised exception (the error
case) leaves the object as it was on entry: in the embedded module every
mutation happens only after all checks have passed, so the state at raise
time is always the entry state. -/
def effectOf (r : Except PyError Effect) (st : MonacoState) : Effect :=
  match r with
  | .ok e => e
  | .error _ => Effect.pure st

/-- True when the call returned normally. -/
def exceptOk (r : Except PyError Effect) : Bool :=
  match r with
  | .ok _ => true
  | .error _ => false

/-- get_pylsp_host: starts the server when it is not running and returns the
host string "localhost:" ++ port (the Python f-string f"localhost:\x7bpylsp_server.port\x7d"). -/
def get_pylsp_host (srv : PylspServer) : PylspServer × String :=
  let srv2 := if srv.is_running then srv else srv.start
  (srv2, "localhost:" ++ toString srv2.port)

/-- Monaco.__init__: the mirror fields exactly as assigned in the constructor,
with pylsp_host obtained from get_pylsp_host.  The Qt plumbing (page, web
channel, load of the HTML document) has no counterpart in the mirror state;
the connection of the initialized signal to the _set_host slot is modelled
inside emit_initialized below. -/
def monaco_init (srv : PylspServer) : PylspServer × MonacoState :=
  let (srv2, host) := get_pylsp_host srv
  (srv2,
    { pylsp_host := .str host
      value := .str ""
      language := .str ""
      theme := .str ""
      readonly := .bool false
      current_cursor := .dict [("line", .int 1), ("column", .int 1)]
      initialized := .bool false
      lsp_header := .str ""
      buffer := .list []
      pylsp_server := srv2
      init_connections := 1 })

/-- Re-entry of Monaco.__init__ on a live instance, as the dispatcher
triggers it for the inbound event name __init__ with a null payload (the
sole argument becomes the parent parameter, and only None is accepted by the
Qt base constructor).  The constructor body runs again on the same object:
pylsp_host is recomputed from the module global collaborator (started if not
running), every mirror field is reset to its default by a plain assignment
(no property setter runs, so nothing is emitted), and the initialized signal
gains one more connection to the _set_host slot.  The Qt side effects (new
page, new web channel, new connector, reload of the HTML document) have no
counterpart in the mirror state and are assumed not to raise. -/
def monaco_reinit (st : MonacoState) : MonacoState :=
  let (srv2, host) := get_pylsp_host st.pylsp_server
  { pylsp_host := .str host
    value := .str ""
    language := .str ""
    theme := .str ""
    readonly := .bool false
    current_cursor := .dict [("line", .int 1), ("column", .int 1)]
    initialized := .bool false
    lsp_header := .str ""
    buffer := .list []
    pylsp_server := srv2
    init_connections := st.init_connections + 1 }

/-- Monaco._set_host: sends the lsp_url command with the given host. -/
def _set_host (st : MonacoState) (host : PyValue) : Effect :=
  { state := st, commands := [⟨"lsp_url", host⟩], signals := [], warnings := [] }

/-- Emission of the initialized signal.  Each constructor run connected this
signal to the slot lambda: self._set_host(self.pylsp_host), so the emit runs
that slot synchronously once per connection (once on a bridge whose
constructor ran once); each slot run sends one lsp_url command with the
pylsp_host read at emit time. -/
def emit_initialized (st : MonacoState) : Effect :=
  { state := st
    commands := List.replicate st.init_connections ⟨"lsp_url", st.pylsp_host⟩
    signals := [QtSignal.initialized]
    warnings := [] }

/-- Property getter Monaco.bridge_initialized. -/
def bridge_initialized (st : MonacoState) : PyValue := st.initialized

/-- Property setter Monaco.bridge_initialized: when the stored value differs
from the new one, stores it and emits initialized; otherwise a no-op. -/
def bridge_initialized_set (st : MonacoState) (value : PyValue) : Effect :=
  if pyEq st.initialized value then Effect.pure st
  else emit_initialized { st with initialized := value }

/-- Monaco._current_text: dedups against the mirror, else updates the mirror
and emits text_changed. -/
def _current_text (st : MonacoState) (value : PyValue) : Effect :=
  if pyEq st.value value then Effect.pure st
  else
    { state := { st with value := value }
      commands := []
      signals := [.text_changed value]
      warnings := [] }

/-- Monaco.on_value_changed: routes to _current_text. -/
def on_value_changed (st : MonacoState) (value : PyValue) : Effect :=
  _current_text st value

/-- Monaco.set_text: no-op when the value equals the mirror, then the readonly
guard, then the isinstance(value, str) check, then mirror update, one
set_text command and the text_changed emission. -/
def set_text (st : MonacoState) (value : PyValue) : Except PyError Effect :=
  if pyEq st.value value then .ok (Effect.pure st)
  else if pyTruthy st.readonly then
    .error (.valueError "Editor is in read-only mode, cannot set value.")
  else if isStr value then
    .ok { state := { st with value := value }
          commands := [⟨"set_text", value⟩]
          signals := [.text_changed value]
          warnings := [] }
  else .error (.typeError "Value must be a string.")

/-- Monaco.get_text: returns the mirror value. -/
def get_text (st : MonacoState) : PyValue := st.value

/-- Monaco.insert_text: readonly guard, isinstance(text, str) check, the
line/column defaulting (column defaults to 1 when line is given alone, column
alone raises ValueError), then one insert command; the state is untouched. -/
def insert_text (st : MonacoState) (text line column : PyValue) :
    Except PyError Effect :=
  if pyTruthy st.readonly then
    .error (.valueError "Editor is in read-only mode, cannot insert text.")
  else if isStr text then
    if !(isNone line) && isNone column then
      .ok { state := st
            commands := [⟨"insert",
              .dict [("text", text), ("line", line), ("column", .int 1)]⟩]
            signals := []
            warnings := [] }
    else if !(isNone column) && isNone line then
      .error (.valueError "Column must be provided if line is specified.")
    else
      .ok { state := st
            commands := [⟨"insert",
              .dict [("text", text), ("line", line), ("column", column)]⟩]
            signals := []
            warnings := [] }
  else .error (.typeError "Text must be a string.")

/-- Monaco.delete_line: readonly guard, then one delete_line command with the
line or the sentinel "current"; the state is untouched. -/
def delete_line (st : MonacoState) (line : PyValue) : Except PyError Effect :=
  if pyTruthy st.readonly then
    .error (.valueError "Editor is in read-only mode, cannot delete line.")
  else
    .ok { state := st
          commands := [⟨"delete_line", if isNone line then .str "current" else line⟩]
          signals := []
          warnings := [] }

/-- Monaco.get_language. -/
def get_language (st : MonacoState) : PyValue := st.language

/-- Monaco.set_language: unconditional mirror update, one language command,
language_changed emission. -/
def set_language (st : MonacoState) (language : PyValue) : Effect :=
  { state := { st with language := language }
    commands := [⟨"language", language⟩]
    signals := [.language_changed language]
    warnings := [] }

/-- Monaco.set_minimap_enabled: one minimap command, stateless. -/
def set_minimap_enabled (st : MonacoState) (enabled : PyValue) : Effect :=
  { state := st, commands := [⟨"minimap", enabled⟩], signals := [], warnings := [] }

/-- Monaco.get_theme. -/
def get_theme (st : MonacoState) : PyValue := st.theme

/-- Monaco.set_theme: unconditional mirror update, one theme command,
theme_changed emission. -/
def set_theme (st : MonacoState) (theme : PyValue) : Effect :=
  { state := { st with theme := theme }
    commands := [⟨"theme", theme⟩]
    signals := [.theme_changed theme]
    warnings := [] }

/-- Monaco.set_readonly: sends the readonly command, then updates the mirror
flag. -/
def set_readonly (st : MonacoState) (read_only : PyValue) : Effect :=
  { state := { st with readonly := read_only }
    commands := [⟨"readonly", read_only⟩]
    signals := []
    warnings := [] }

/-- Monaco.set_cursor: one set_cursor command carrying line, column and
moveToPosition; the local cursor mirror is not touched.  In the source,
column defaults to 1 and move_to_position to None; callers of the embedding
pass the defaults explicitly. -/
def set_cursor (st : MonacoState) (line column move_to_position : PyValue) :
    Except PyError Effect :=
  .ok { state := st
        commands := [⟨"set_cursor",
          .dict [("line", line), ("column", column),
                 ("moveToPosition", move_to_position)]⟩]
        signals := []
        warnings := [] }

/-- Property getter Monaco.current_cursor. -/
def current_cursor (st : MonacoState) : PyValue := st.current_cursor

/-- Monaco.set_highlighted_lines: one highlight_lines command, stateless. -/
def set_highlighted_lines (st : MonacoState) (start_line end_line : PyValue) : Effect :=
  { state := st
    commands := [⟨"highlight_lines", .dict [("start", start_line), ("end", end_line)]⟩]
    signals := []
    warnings := [] }

/-- Monaco.clear_highlighted_lines: one remove_highlight command, stateless. -/
def clear_highlighted_lines (st : MonacoState) : Effect :=
  { state := st, commands := [⟨"remove_highlight", .dict []⟩], signals := [], warnings := [] }

/-- Monaco.set_vim_mode_enabled: one vim_mode command, stateless. -/
def set_vim_mode_enabled (st : MonacoState) (enabled : PyValue) : Effect :=
  { state := st, commands := [⟨"vim_mode", enabled⟩], signals := [], warnings := [] }

/-- Characters removed by the Python str.strip() call, restricted to the ASCII
whitespace characters; Unicode whitespace beyond these is not modelled (no
claim depends on it). -/
def isPyWhitespace (c : Char) : Bool :=
  c == ' ' || c == '\t' || c == '\n' || c == '\r' || c == '\x0b' || c == '\x0c'

/-- Python str.strip(): removes leading and trailing whitespace. -/
def pyStrip (s : String) : String :=
  ⟨((s.data.dropWhile isPyWhitespace).reverse.dropWhile isPyWhitespace).reverse⟩

/-- Python str.endswith for the single character newline suffix. -/
def endsWithNewline (s : String) : Bool :=
  s.data.getLast? == some '\n'

/-- Normalization performed by Monaco.set_lsp_header: strip, then append one
newline when the stripped text does not already end with one. -/
def normalizeHeader (h : String) : String :=
  let h1 := pyStrip h
  if endsWithNewline h1 then h1 else h1 ++ "\n"

/-- Monaco.set_lsp_header: isinstance(header, str) check, normalization,
mirror update and one set_lsp_header command. -/
def set_lsp_header (st : MonacoState) (header : PyValue) : Except PyError Effect :=
  match header with
  | .str h =>
      let h2 := normalizeHeader h
      .ok { state := { st with lsp_header := .str h2 }
            commands := [⟨"set_lsp_header", .str h2⟩]
            signals := []
            warnings := [] }
  | _ => .error (.typeError "Header must be a string.")

/-- Monaco.get_lsp_header. -/
def get_lsp_header (st : MonacoState) : PyValue := st.lsp_header

/-
JSON decoding (Python json.loads).  A recursive descent decoder over the
character list, with a fuel argument for the nesting recursion.  Faithful to
the default Python decoder for: the four whitespace characters, null, true,
false, integers (leading zeros rejected), strings with the standard escapes
(strict mode: unescaped control characters rejected), arrays, objects, the
extended literals NaN, Infinity and -Infinity, and rejection of trailing
data.  Deviations, none load-bearing for the claims: floats keep their
literal text (floatRaw) instead of an IEEE value, lone surrogate escapes are
not special-cased, and duplicate object keys are kept in order instead of
last-wins.
-/

/-- JSON whitespace (space, tab, newline, carriage return). -/
def jsonWs (c : Char) : Bool :=
  c == ' ' || c == '\t' || c == '\n' || c == '\r'

/-- Drop leading JSON whitespace. -/
def skipWs (l : List Char) : List Char := l.dropWhile jsonWs

/-- Value of one hexadecimal digit. -/
def hexVal (c : Char) : Option Nat :=
  if '0' ≤ c ∧ c ≤ '9' then some (c.toNat - 48)
  else if 'a' ≤ c ∧ c ≤ 'f' then some (c.toNat - 97 + 10)
  else if 'A' ≤ c ∧ c ≤ 'F' then some (c.toNat - 65 + 10)
  else Option.none

/-- Body of a JSON string after the opening quote: returns the decoded
characters and the input after the closing quote. -/
def parseStrBody : Nat → List Char → Option (List Char × List Char)
  | 0, _ => Option.none
  | _ + 1, [] => Option.none
  | fuel + 1, c :: rest =>
    if c == '"' then some ([], rest)
    else if c == '\\' then
      match rest with
      | [] => Option.none
      | e :: rest2 =>
        let esc : Option (Char × List Char) :=
          if e == '"' then some ('"', rest2)
          else if e == '\\' then some ('\\', rest2)
          else if e == '/' then some ('/', rest2)
          else if e == 'b' then some ('\x08', rest2)
          else if e == 'f' then some ('\x0c', rest2)
          else if e == 'n' then some ('\n', rest2)
          else if e == 'r' then some ('\r', rest2)
          else if e == 't' then some ('\t', rest2)
          else if e == 'u' then
            match rest2 with
            | h1 :: h2 :: h3 :: h4 :: rest3 =>
              match hexVal h1, hexVal h2, hexVal h3, hexVal h4 with
              | some a, some b, some c2, some d =>
                  some (Char.ofNat (((a * 16 + b) * 16 + c2) * 16 + d), rest3)
              | _, _, _, _ => Option.none
            | _ => Option.none
          else Option.none
        match esc with
        | some (ch, r) =>
          match parseStrBody fuel r with
          | some (cs, r2) => some (ch :: cs, r2)
          | Option.none => Option.none
        | Option.none => Option.none
    else if c.toNat < 32 then Option.none
    else
      match parseStrBody fuel rest with
      | some (cs, r2) => some (c :: cs, r2)
      | Option.none => Option.none

/-- Natural number denoted by a run of decimal digits. -/
def natFromDigits (l : List Char) : Nat :=
  l.foldl (fun a c => a * 10 + (c.toNat - 48)) 0

/-- JSON number (or the extended Infinity literal after a minus sign).
Integers decode to int; a number with a fraction or exponent part keeps its
whole literal in floatRaw. -/
def parseNum (l : List Char) : Option (PyValue × List Char) :=
  let signAndRest : Bool × List Char :=
    match l with
    | '-' :: r => (true, r)
    | _ => (false, l)
  let neg := signAndRest.1
  let l1 := signAndRest.2
  match l1 with
  | 'I' :: 'n' :: 'f' :: 'i' :: 'n' :: 'i' :: 't' :: 'y' :: r =>
      if neg then some (.floatRaw "-Infinity", r) else some (.floatRaw "Infinity", r)
  | _ =>
    let ds := l1.takeWhile Char.isDigit
    let rest := l1.dropWhile Char.isDigit
    match ds with
    | [] => Option.none
    | d :: ds2 =>
      if d == '0' && !ds2.isEmpty then Option.none
      else
        match rest with
        | '.' :: r2 =>
          let fs := r2.takeWhile Char.isDigit
          let r3 := r2.dropWhile Char.isDigit
          if fs.isEmpty then Option.none
          else
            match r3 with
            | e :: r4 =>
              if e == 'e' || e == 'E' then
                let expSignAndRest : List Char :=
                  match r4 with
                  | '+' :: r5 => r5
                  | '-' :: r5 => r5
                  | _ => r4
                let es := expSignAndRest.takeWhile Char.isDigit
                let r6 := expSignAndRest.dropWhile Char.isDigit
                if es.isEmpty then Option.none
                else
                  let litLen := l.length - r6.length
                  some (.floatRaw ⟨l.take litLen⟩, r6)
              else
                let litLen := l.length - r3.length
                some (.floatRaw ⟨l.take litLen⟩, r3)
            | [] =>
              let litLen := l.length - r3.length
              some (.floatRaw ⟨l.take litLen⟩, r3)
        | e :: r2 =>
          if e == 'e' || e == 'E' then
            let expRest : List Char :=
              match r2 with
              | '+' :: r5 => r5
              | '-' :: r5 => r5
              | _ => r2
            let es := expRest.takeWhile Char.isDigit
            let r6 := expRest.dropWhile Char.isDigit
            if es.isEmpty then Option.none
            else
              let litLen := l.length - r6.length
              some (.floatRaw ⟨l.take litLen⟩, r6)
          else
            let n : Int := Int.ofNat (natFromDigits (d :: ds2))
            some (.int (if neg then -n else n), rest)
        | [] =>
          let n : Int := Int.ofNat (natFromDigits (d :: ds2))
          some (.int (if neg then -n else n), rest)

mutual

/-- JSON value: leading whitespace, then one value. -/
def parseVal : Nat → List Char → Option (PyValue × List Char)
  | 0, _ => Option.none
  | fuel + 1, l =>
    match skipWs l with
    | [] => Option.none
    | c :: rest =>
      if c == '"' then
        match parseStrBody (rest.length + 1) rest with
        | some (cs, r) => some (.str ⟨cs⟩, r)
        | Option.none => Option.none
      else if c == '[' then
        match skipWs rest with
        | ']' :: r => some (.list [], r)
        | r =>
          match parseItems fuel r with
          | some (xs, r2) => some (.list xs, r2)
          | Option.none => Option.none
      else if c == '{' then
        match skipWs rest with
        | '}' :: r => some (.dict [], r)
        | r =>
          match parseMembers fuel r with
          | some (kvs, r2) => some (.dict kvs, r2)
          | Option.none => Option.none
      else if c == 't' then
        match rest with
        | 'r' :: 'u' :: 'e' :: r => some (.bool true, r)
        | _ => Option.none
      else if c == 'f' then
        match rest with
        | 'a' :: 'l' :: 's' :: 'e' :: r => some (.bool false, r)
        | _ => Option.none
      else if c == 'n' then
        match rest with
        | 'u' :: 'l' :: 'l' :: r => some (.none, r)
        | _ => Option.none
      else if c == 'N' then
        match rest with
        | 'a' :: 'N' :: r => some (.floatRaw "NaN", r)
        | _ => Option.none
      else parseNum (c :: rest)

/-- Comma separated array items up to the closing bracket. -/
def parseItems : Nat → List Char → Option (List PyValue × List Char)
  | 0, _ => Option.none
  | fuel + 1, l =>
    match parseVal fuel l with
    | Option.none => Option.none
    | some (v, r) =>
      match skipWs r with
      | ',' :: r2 =>
        match parseItems fuel r2 with
        | some (xs, r3) => some (v :: xs, r3)
        | Option.none => Option.none
      | ']' :: r2 => some ([v], r2)
      | _ => Option.none

/-- Comma separated object members up to the closing brace. -/
def parseMembers : Nat → List Char → Option (List (String × PyValue) × List Char)
  | 0, _ => Option.none
  | fuel + 1, l =>
    match skipWs l with
    | [] => Option.none
    | c :: r =>
      if c == '"' then
        match parseStrBody (r.length + 1) r with
        | some (cs, r2) =>
          match skipWs r2 with
          | ':' :: r3 =>
            match parseVal fuel r3 with
            | some (v, r4) =>
              match skipWs r4 with
              | ',' :: r5 =>
                match parseMembers fuel r5 with
                | some (kvs, r6) => some ((⟨cs⟩, v) :: kvs, r6)
                | Option.none => Option.none
              | '}' :: r5 => some ([(⟨cs⟩, v)], r5)
              | _ => Option.none
            | Option.none => Option.none
          | _ => Option.none
        | Option.none => Option.none
      else Option.none

end

/-- Python json.loads: decode one value and reject trailing data; any failure
is the raised json.JSONDecodeError.  The fuel exceeds the maximal possible
bracket nesting depth of the input ((length / 2) + 1 levels, two fuel units
per level), so the decoder never fails from fuel exhaustion. -/
def json_loads (s : String) : Except PyError PyValue :=
  match parseVal (s.data.length + 2) s.data with
  | some (v, r) => if (skipWs r).isEmpty then .ok v else .error .jsonDecodeError
  | Option.none => .error .jsonDecodeError

/-- Monaco.on_new_data_received, the inbound dispatcher.  The json.loads call
is not wrapped in any try/except, so a decode failure propagates to the
caller.  After a successful decode the name is resolved by the
hasattr/getattr/callable/setattr cascade of the source.  The arms below model
that cascade for an explicit table of attributes:

 - a callable attribute is invoked as method(data); methods whose signature
   cannot accept exactly one positional argument raise TypeError, as the
   dynamic call does in Python; this includes the constructor itself, so the
   inbound name __init__ re-runs Monaco.__init__ on the live instance (see
   monaco_reinit) when the payload is null, and raises TypeError from the Qt
   base constructor for any other payload (no JSON value is a QWidget);
 - a property resolves to its stored value, which is not callable, so the
   cascade falls through to setattr: the bridge_initialized setter runs, and
   current_cursor, having no setter, raises AttributeError;
 - a plain instance field is not callable either, and setattr stores the
   decoded payload in it unchanged.

The default arm is the else branch of the source, which prints a warning;
this is faithful exactly for names the Python object does not resolve.
Names the object does resolve but that are OUTSIDE this model fall to the
same arm unfaithfully: the Signal class attributes, the Qt object valued
fields (_connector, _channel), the attributes inherited from the Qt base
classes, and the object protocol attributes other than __init__ (for
example __dict__, whose assignment replaces the whole instance dictionary,
or __class__).  No theorem below quantifies over any of these names: every
universally quantified dispatch statement restricts its names to an explicit
list drawn from the table above. -/
def on_new_data_received (st : MonacoState) (name value : String) :
    Except PyError Effect :=
  match json_loads value with
  | .error e => .error e
  | .ok data =>
    match name with
    | "__init__" =>
      if isNone data then .ok (Effect.pure (monaco_reinit st))
      else .error (.typeError "arguments did not match any overloaded call: QWebEngineView(parent) expects a QWidget or None")
    | "on_new_data_received" =>
      .error (.typeError "on_new_data_received() missing 1 required positional argument")
    | "on_value_changed" => .ok (on_value_changed st data)
    | "_current_text" => .ok (_current_text st data)
    | "set_text" => set_text st data
    | "get_text" =>
      .error (.typeError "get_text() takes 1 positional argument but 2 were given")
    | "insert_text" => insert_text st data PyValue.none PyValue.none
    | "delete_line" => delete_line st data
    | "get_language" =>
      .error (.typeError "get_language() takes 1 positional argument but 2 were given")
    | "set_language" => .ok (set_language st data)
    | "set_minimap_enabled" => .ok (set_minimap_enabled st data)
    | "get_theme" =>
      .error (.typeError "get_theme() takes 1 positional argument but 2 were given")
    | "set_theme" => .ok (set_theme st data)
    | "set_readonly" => .ok (set_readonly st data)
    | "set_cursor" => set_cursor st data (.int 1) PyValue.none
    | "set_highlighted_lines" =>
      .error (.typeError "set_highlighted_lines() missing 1 required positional argument")
    | "clear_highlighted_lines" =>
      .error (.typeError "clear_highlighted_lines() takes 1 positional argument but 2 were given")
    | "set_vim_mode_enabled" => .ok (set_vim_mode_enabled st data)
    | "set_lsp_header" => set_lsp_header st data
    | "get_lsp_header" =>
      .error (.typeError "get_lsp_header() takes 1 positional argument but 2 were given")
    | "_load_editor" =>
      .error (.typeError "_load_editor() takes 1 positional argument but 2 were given")
    | "_set_host" => .ok (_set_host st data)
    | "bridge_initialized" => .ok (bridge_initialized_set st data)
    | "current_cursor" =>
      .error (.attributeError "property current_cursor of Monaco object has no setter")
    | "pylsp_host" => .ok (Effect.pure { st with pylsp_host := data })
    | "_value" => .ok (Effect.pure { st with value := data })
    | "_language" => .ok (Effect.pure { st with language := data })
    | "_theme" => .ok (Effect.pure { st with theme := data })
    | "_readonly" => .ok (Effect.pure { st with readonly := data })
    | "_current_cursor" => .ok (Effect.pure { st with current_cursor := data })
    | "_initialized" => .ok (Effect.pure { st with initialized := data })
    | "_lsp_header" => .ok (Effect.pure { st with lsp_header := data })
    | "_buffer" => .ok (Effect.pure { st with buffer := data })
    | _ =>
      .ok { state := st
            commands := []
            signals := []
            warnings := ["Warning: No method or property named \x27" ++ name ++
                         "\x27 in EditorBridge."] }

/-- Concrete collaborator for the construction scenarios: not yet running,
reporting port 2087. -/
def initServer : PylspServer := { running := false, port := 2087 }

/-- State of a freshly constructed bridge over initServer. -/
def initialState : MonacoState := (monaco_init initServer).2

/-- Freshly constructed bridge switched to readonly through the public API. -/
def readonlyState : MonacoState := (set_readonly initialState (PyValue.bool true)).state

/-- Property of a string: its last character is a newline and the character
before it, when there is one, is not, i.e. there is exactly one trailing
newline. -/
def hasOneTrailingNewline (s : String) : Prop :=
  s.data.getLast? = some '\n' ∧ s.data.dropLast.getLast? ≠ some '\n'

/-- The inbound names modelled by on_new_data_received that leave the
current_cursor mirror unchanged: every name of the dispatch table except the
cursor-changed event _current_cursor and constructor re-entry __init__. -/
def cursor_preserving_inbound_names : List String :=
  ["on_new_data_received", "on_value_changed", "_current_text", "set_text",
   "get_text", "insert_text", "delete_line", "get_language", "set_language",
   "set_minimap_enabled", "get_theme", "set_theme", "set_readonly",
   "set_cursor", "set_highlighted_lines", "clear_highlighted_lines",
   "set_vim_mode_enabled", "set_lsp_header", "get_lsp_header", "_load_editor",
   "_set_host", "bridge_initialized", "current_cursor", "pylsp_host",
   "_value", "_language", "_theme", "_readonly", "_initialized",
   "_lsp_header", "_buffer"]

/-- The inbound names modelled by on_new_data_received that leave the text
mirror (_value) unchanged: every name of the dispatch table except set_text,
on_value_changed, _current_text, the direct field assignment _value, and
constructor re-entry __init__. -/
def text_preserving_inbound_names : List String :=
  ["on_new_data_received", "get_text", "insert_text", "delete_line",
   "get_language", "set_language", "set_minimap_enabled", "get_theme",
   "set_theme", "set_readonly", "set_cursor", "set_highlighted_lines",
   "clear_highlighted_lines", "set_vim_mode_enabled", "set_lsp_header",
   "get_lsp_header", "_load_editor", "_set_host", "bridge_initialized",
   "current_cursor", "pylsp_host", "_language", "_theme", "_readonly",
   "_current_cursor", "_initialized", "_lsp_header", "_buffer"]

theorem head_dropWhile_not {p : Char → Bool} {l : List Char} {c : Char}
    (h : (l.dropWhile p).head? = some c) : p c = false := by
  induction l with
  | nil => simp [List.dropWhile] at h
  | cons a as ih =>
    rw [List.dropWhile_cons] at h
    by_cases hp : p a
    · rw [if_pos hp] at h
      exact ih h
    · rw [if_neg hp] at h
      simp at h
      rw [← h]
      simpa using hp

theorem pyStrip_getLast_not_ws {s : String} {c : Char}
    (h : (pyStrip s).data.getLast? = some c) : isPyWhitespace c = false := by
  unfold pyStrip at h
  rw [show (String.mk (((s.data.dropWhile isPyWhitespace).reverse.dropWhile
        isPyWhitespace).reverse)).data =
      ((s.data.dropWhile isPyWhitespace).reverse.dropWhile isPyWhitespace).reverse from rfl,
    List.getLast?_reverse] at h
  exact head_dropWhile_not h

theorem data_append (s t : String) : (s ++ t).data = s.data ++ t.data := by
  cases s
  cases t
  rfl

theorem normalizeHeader_eq_strip (h : String) :
    normalizeHeader h = pyStrip h ++ "\n" := by
  unfold normalizeHeader endsWithNewline
  cases hc : (pyStrip h).data.getLast? with
  | none => simp [hc]
  | some c =>
    have hw := pyStrip_getLast_not_ws hc
    have hcne : c ≠ '\n' := by
      intro e
      subst e
      simp [isPyWhitespace] at hw
    simp [hc, hcne]

theorem normalizeHeader_one_newline (h : String) :
    hasOneTrailingNewline (normalizeHeader h) := by
  rw [normalizeHeader_eq_strip]
  constructor
  · rw [data_append, show ("\n" : String).data = ['\n'] from rfl, List.getLast?_concat]
  · rw [data_append, show ("\n" : String).data = ['\n'] from rfl, List.dropLast_concat]
    intro hcon
    have := pyStrip_getLast_not_ws hcon
    simp [isPyWhitespace] at this

theorem pyEq_str_eq {v : PyValue} {s : String} (h : pyEq v (PyValue.str s) = true) :
    v = PyValue.str s := by
  cases v <;> simp [pyEq] at h
  simp [h]

theorem cursor_frame_set_text (st : MonacoState) (v : PyValue) :
    (effectOf (set_text st v) st).state.current_cursor = st.current_cursor := by
  unfold set_text
  split_ifs <;> simp [effectOf, Effect.pure]

theorem cursor_frame_insert_text (st : MonacoState) (t l c : PyValue) :
    (effectOf (insert_text st t l c) st).state.current_cursor = st.current_cursor := by
  unfold insert_text
  split_ifs <;> simp [effectOf, Effect.pure]

theorem cursor_frame_delete_line (st : MonacoState) (l : PyValue) :
    (effectOf (delete_line st l) st).state.current_cursor = st.current_cursor := by
  unfold delete_line
  split_ifs <;> simp [effectOf, Effect.pure]

theorem cursor_frame_set_lsp_header (st : MonacoState) (v : PyValue) :
    (effectOf (set_lsp_header st v) st).state.current_cursor = st.current_cursor := by
  cases v <;> simp [set_lsp_header, effectOf, Effect.pure]

theorem cursor_frame_set_cursor (st : MonacoState) (l c m : PyValue) :
    (effectOf (set_cursor st l c m) st).state.current_cursor = st.current_cursor := rfl

theorem cursor_frame_current_text (st : MonacoState) (v : PyValue) :
    (_current_text st v).state.current_cursor = st.current_cursor := by
  unfold _current_text
  split
  all_goals simp [Effect.pure]

theorem cursor_frame_bridge_initialized_set (st : MonacoState) (v : PyValue) :
    (bridge_initialized_set st v).state.current_cursor = st.current_cursor := by
  unfold bridge_initialized_set emit_initialized
  split
  all_goals simp [Effect.pure]

theorem value_frame_insert_text (st : MonacoState) (t l c : PyValue) :
    (effectOf (insert_text st t l c) st).state.value = st.value := by
  unfold insert_text
  split_ifs <;> simp [effectOf, Effect.pure]

theorem value_frame_delete_line (st : MonacoState) (l : PyValue) :
    (effectOf (delete_line st l) st).state.value = st.value := by
  unfold delete_line
  split_ifs <;> simp [effectOf, Effect.pure]

theorem value_frame_set_lsp_header (st : MonacoState) (v : PyValue) :
    (effectOf (set_lsp_header st v) st).state.value = st.value := by
  cases v <;> simp [set_lsp_header, effectOf, Effect.pure]

theorem value_frame_set_cursor (st : MonacoState) (l c m : PyValue) :
    (effectOf (set_cursor st l c m) st).state.value = st.value := rfl

theorem value_frame_bridge_initialized_set (st : MonacoState) (v : PyValue) :
    (bridge_initialized_set st v).state.value = st.value := by
  unfold bridge_initialized_set emit_initialized
  split
  all_goals simp [Effect.pure]

/-- C1 (counterexample): the claim says a malformed inbound payload is caught
and logged as a warning and never propagates.  On the constructed bridge the
inbound event (on_value_changed, "not json") makes on_new_data_received raise
json.JSONDecodeError (the error result), because the json.loads call at the
top of the dispatcher is not wrapped in any try/except; no warning is logged
on this path. -/
theorem C1_cex_malformed_payload_raises :
    on_new_data_received initialState "on_value_changed" "not json" =
      Except.error PyError.jsonDecodeError := by
  rfl

/-- C1 (amended): whenever json.loads fails on the inbound payload, the
dispatcher on_new_data_received propagates that very exception to the caller
(it is not caught and no warning is logged); the bridge state is left
unchanged, since the failure precedes every state mutation (in this embedding
an error result never carries a state change). -/
theorem C1_parse_failure_propagates (st : MonacoState) (name value : String)
    (e : PyError) (h : json_loads value = Except.error e) :
    on_new_data_received st name value = Except.error e := by
  simp only [on_new_data_received, h]

/-- C1 (witness for the amended theorem) at the constructed bridge and the
malformed payload "not json". -/
theorem C1_amended_witness :
    json_loads "not json" = Except.error PyError.jsonDecodeError ∧
    on_new_data_received initialState "set_text" "not json" =
      Except.error PyError.jsonDecodeError :=
  ⟨by rfl,
   C1_parse_failure_propagates initialState "set_text" "not json"
     PyError.jsonDecodeError (by rfl)⟩

/-- C2 (counterexample): the claim says set_text raises InvalidState whenever
the readonly flag is true, even when the value equals the current mirror
text.  On the readonly bridge whose mirror text is the empty string,
set_text("") returns normally as a silent no-op (the dedup check runs before
the readonly guard), sending nothing and raising nothing. -/
theorem C2_cex_readonly_noop :
    readonlyState.readonly = PyValue.bool true ∧
    readonlyState.value = PyValue.str "" ∧
    set_text readonlyState (PyValue.str "") = Except.ok (Effect.pure readonlyState) := by
  exact ⟨rfl, rfl, rfl⟩

/-- C2 (amended): with the readonly flag truthy, set_text raises the
InvalidState error (ValueError) for every value that differs from the current
mirror text; when the value equals the mirror text it is a silent no-op
instead, returning without raising, sending or emitting. -/
theorem C2_set_text_readonly (st : MonacoState) (v : PyValue)
    (hro : pyTruthy st.readonly = true) :
    (pyEq st.value v = false →
      set_text st v =
        Except.error (PyError.valueError "Editor is in read-only mode, cannot set value.")) ∧
    (pyEq st.value v = true → set_text st v = Except.ok (Effect.pure st)) := by
  constructor
  · intro h
    simp [set_text, h, hro]
  · intro h
    simp [set_text, h]

/-- C2 (witness for the amended theorem): on the readonly bridge, a value
different from the mirror text raises and the mirror value itself does not. -/
theorem C2_amended_witness :
    pyTruthy readonlyState.readonly = true ∧
    set_text readonlyState (PyValue.str "x") =
      Except.error (PyError.valueError "Editor is in read-only mode, cannot set value.") ∧
    set_text readonlyState (PyValue.str "") = Except.ok (Effect.pure readonlyState) :=
  ⟨by rfl,
   (C2_set_text_readonly readonlyState (PyValue.str "x") (by rfl)).1 (by rfl),
   (C2_set_text_readonly readonlyState (PyValue.str "") (by rfl)).2 (by rfl)⟩

/-- C3: a constructed bridge starts with readiness false, and the readiness
transition (bridge_initialized set to true) emits the initialized signal,
whose sole connected slot sends exactly one lsp_url command carrying
"localhost:" followed by the port reported by the language-server
collaborator (the collaborator is started lazily by the constructor when not
already running, and its reported port is what the host string carries). -/
theorem C3_lsp_url_once_on_ready (srv : PylspServer) :
    ((monaco_init srv).2).initialized = PyValue.bool false ∧
    (bridge_initialized_set (monaco_init srv).2 (PyValue.bool true)).commands =
      [⟨"lsp_url", PyValue.str ("localhost:" ++ toString srv.port)⟩] ∧
    (bridge_initialized_set (monaco_init srv).2 (PyValue.bool true)).signals =
      [QtSignal.initialized] ∧
    ((monaco_init srv).1).port = srv.port := by
  cases h : srv.running <;>
    simp [monaco_init, get_pylsp_host, PylspServer.is_running, PylspServer.start, h,
      bridge_initialized_set, pyEq, emit_initialized, _set_host, Effect.pure]

/-- C4: with the editor not readonly, set_text with any string succeeds;
afterwards get_text returns exactly that string, and a second immediately
following set_text with the identical string returns the unchanged state with
an empty command list and an empty signal list (no outbound command, no
text_changed emission). -/
theorem C4_set_text_idempotent (st : MonacoState) (s : String)
    (hro : pyTruthy st.readonly = false) :
    exceptOk (set_text st (PyValue.str s)) = true ∧
    get_text (effectOf (set_text st (PyValue.str s)) st).state = PyValue.str s ∧
    set_text (effectOf (set_text st (PyValue.str s)) st).state (PyValue.str s) =
      Except.ok { state := (effectOf (set_text st (PyValue.str s)) st).state
                  commands := []
                  signals := []
                  warnings := [] } := by
  by_cases h : pyEq st.value (PyValue.str s) = true
  · have hv := pyEq_str_eq h
    refine ⟨?_, ?_, ?_⟩ <;>
      simp [set_text, pyEq, effectOf, Effect.pure, exceptOk, get_text, hv]
  · have h2 : pyEq st.value (PyValue.str s) = false := by simpa using h
    refine ⟨?_, ?_, ?_⟩ <;>
      simp [set_text, h2, hro, isStr, effectOf, Effect.pure, exceptOk, get_text, pyEq]

/-- C4 (witness) on the freshly constructed bridge and the string "hello". -/
theorem C4_witness :
    pyTruthy initialState.readonly = false ∧
    exceptOk (set_text initialState (PyValue.str "hello")) = true ∧
    get_text (effectOf (set_text initialState (PyValue.str "hello")) initialState).state =
      PyValue.str "hello" ∧
    set_text (effectOf (set_text initialState (PyValue.str "hello")) initialState).state
        (PyValue.str "hello") =
      Except.ok { state :=
                    (effectOf (set_text initialState (PyValue.str "hello")) initialState).state
                  commands := []
                  signals := []
                  warnings := [] } := by
  have h := C4_set_text_idempotent initialState "hello" (by rfl)
  exact ⟨by rfl, h.1, h.2.1, h.2.2⟩

/-- C5: set_lsp_header on a string stores and sends the normalized header,
the stripped input followed by exactly one newline; the stored header always
ends with exactly one trailing newline, and get_lsp_header afterwards returns
this normalized form (not the raw input); a non-string argument raises the
TypeMismatch error (TypeError). -/
theorem C5_set_lsp_header_normalizes (st : MonacoState) (h : String) (v : PyValue)
    (hv : isStr v = false) :
    set_lsp_header st (PyValue.str h) =
      Except.ok { state := { st with lsp_header := PyValue.str (pyStrip h ++ "\n") }
                  commands := [⟨"set_lsp_header", PyValue.str (pyStrip h ++ "\n")⟩]
                  signals := []
                  warnings := [] } ∧
    hasOneTrailingNewline (pyStrip h ++ "\n") ∧
    get_lsp_header (effectOf (set_lsp_header st (PyValue.str h)) st).state =
      PyValue.str (pyStrip h ++ "\n") ∧
    set_lsp_header st v = Except.error (PyError.typeError "Header must be a string.") := by
  refine ⟨?_, ?_, ?_, ?_⟩
  · simp [set_lsp_header, normalizeHeader_eq_strip]
  · have hw := normalizeHeader_one_newline h
    rwa [normalizeHeader_eq_strip] at hw
  · simp [set_lsp_header, normalizeHeader_eq_strip, effectOf, get_lsp_header]
  · cases v <;> simp [isStr] at hv <;> simp [set_lsp_header]

/-- C5 (witness) at the header "  hi\n\n" (normalized to "hi\n") and the
non-string argument 3. -/
theorem C5_witness :
    isStr (PyValue.int 3) = false ∧
    hasOneTrailingNewline (pyStrip "  hi\n\n" ++ "\n") ∧
    get_lsp_header
        (effectOf (set_lsp_header initialState (PyValue.str "  hi\n\n")) initialState).state =
      PyValue.str (pyStrip "  hi\n\n" ++ "\n") ∧
    set_lsp_header initialState (PyValue.int 3) =
      Except.error (PyError.typeError "Header must be a string.") := by
  have h := C5_set_lsp_header_normalizes initialState "  hi\n\n" (PyValue.int 3) (by rfl)
  exact ⟨by rfl, h.2.1, h.2.2.1, h.2.2.2⟩

/-- C6: with the editor not readonly, insert_text with a string, a line and no
column sends one insert command whose column field is defaulted to the
integer 1; insert_text with a column but no line raises the InvalidArgument
error (ValueError) and, being an exception, sends no command. -/
theorem C6_insert_text_line_column (st : MonacoState) (t : String) (L C : Int)
    (hro : pyTruthy st.readonly = false) :
    insert_text st (PyValue.str t) (PyValue.int L) PyValue.none =
      Except.ok { state := st
                  commands := [⟨"insert",
                    PyValue.dict [("text", PyValue.str t), ("line", PyValue.int L),
                                  ("column", PyValue.int 1)]⟩]
                  signals := []
                  warnings := [] } ∧
    insert_text st (PyValue.str t) PyValue.none (PyValue.int C) =
      Except.error (PyError.valueError "Column must be provided if line is specified.") := by
  constructor <;> simp [insert_text, hro, isStr, isNone]

/-- C6 (witness) on the freshly constructed bridge, text "abc", line 2,
column 3. -/
theorem C6_witness :
    pyTruthy initialState.readonly = false ∧
    insert_text initialState (PyValue.str "abc") (PyValue.int 2) PyValue.none =
      Except.ok { state := initialState
                  commands := [⟨"insert",
                    PyValue.dict [("text", PyValue.str "abc"), ("line", PyValue.int 2),
                                  ("column", PyValue.int 1)]⟩]
                  signals := []
                  warnings := [] } ∧
    insert_text initialState (PyValue.str "abc") PyValue.none (PyValue.int 3) =
      Except.error (PyError.valueError "Column must be provided if line is specified.") := by
  have h := C6_insert_text_line_column initialState "abc" 2 3 (by rfl)
  exact ⟨by rfl, h.1, h.2⟩

/-- C7 (counterexample): the claim says that for every boolean v, two
consecutive assignments of v to bridge_initialized raise the initialized
notification exactly once.  On the freshly constructed bridge, whose
readiness is already false, assigning false twice emits the notification
zero times, not once: both assignments are no-ops. -/
theorem C7_cex_double_false_assignment :
    initialState.initialized = PyValue.bool false ∧
    (bridge_initialized_set initialState (PyValue.bool false)).signals = [] ∧
    (bridge_initialized_set
        (bridge_initialized_set initialState (PyValue.bool false)).state
        (PyValue.bool false)).signals = [] := by
  exact ⟨rfl, rfl, rfl⟩

/-- C7 (amended): setting bridge_initialized to a boolean v twice in a row
raises the initialized notification exactly once when v differs from the
current readiness value, and zero times when it already equals it; the
second, identical assignment is always a no-op that emits nothing, sends
nothing and leaves the state unchanged. -/
theorem C7_readiness_setter_idempotent (st : MonacoState) (b0 v : Bool)
    (hinit : st.initialized = PyValue.bool b0) :
    (bridge_initialized_set
        (bridge_initialized_set st (PyValue.bool v)).state (PyValue.bool v)).signals = [] ∧
    (bridge_initialized_set
        (bridge_initialized_set st (PyValue.bool v)).state (PyValue.bool v)).commands = [] ∧
    (bridge_initialized_set
        (bridge_initialized_set st (PyValue.bool v)).state (PyValue.bool v)).state =
      (bridge_initialized_set st (PyValue.bool v)).state ∧
    (b0 ≠ v → (bridge_initialized_set st (PyValue.bool v)).signals = [QtSignal.initialized]) ∧
    (b0 = v → (bridge_initialized_set st (PyValue.bool v)).signals = [] ∧
        (bridge_initialized_set st (PyValue.bool v)).state = st) := by
  by_cases h : b0 = v
  · subst h
    refine ⟨?_, ?_, ?_, ?_, ?_⟩ <;>
      simp [bridge_initialized_set, pyEq, hinit, Effect.pure]
  · have hb : (b0 == v) = false := by simp [h]
    refine ⟨?_, ?_, ?_, ?_, ?_⟩ <;>
      simp [bridge_initialized_set, pyEq, hinit, hb, h, emit_initialized, _set_host,
        Effect.pure]

/-- C7 (witness for the amended theorem): on the constructed bridge (readiness
false), setting true twice emits exactly one notification, on the first
assignment. -/
theorem C7_amended_witness :
    initialState.initialized = PyValue.bool false ∧
    (bridge_initialized_set initialState (PyValue.bool true)).signals =
      [QtSignal.initialized] ∧
    (bridge_initialized_set
        (bridge_initialized_set initialState (PyValue.bool true)).state
        (PyValue.bool true)).signals = [] := by
  have h := C7_readiness_setter_idempotent initialState false true rfl
  exact ⟨rfl, h.2.2.2.1 (by decide), h.1⟩

/-- C8 (counterexample): the claim says the cursor mirror is only ever
updated by inbound cursor-changed events.  Trace on the constructed bridge:
the inbound cursor event (_current_cursor, line 7 column 3) first moves the
mirror; then the inbound event (__init__, "null") — constructor re-entry,
which is not a cursor-changed event — resets the mirror back to the default
line 1 column 1, a different position than the one it held. -/
theorem C8_cex_inbound_init_resets_cursor :
    (effectOf (on_new_data_received initialState "_current_cursor"
        "\x7b\"line\": 7, \"column\": 3\x7d") initialState).state.current_cursor =
      PyValue.dict [("line", PyValue.int 7), ("column", PyValue.int 3)] ∧
    (effectOf (on_new_data_received
        (effectOf (on_new_data_received initialState "_current_cursor"
          "\x7b\"line\": 7, \"column\": 3\x7d") initialState).state
        "__init__" "null")
        (effectOf (on_new_data_received initialState "_current_cursor"
          "\x7b\"line\": 7, \"column\": 3\x7d") initialState).state).state.current_cursor =
      PyValue.dict [("line", PyValue.int 1), ("column", PyValue.int 1)] ∧
    PyValue.dict [("line", PyValue.int 7), ("column", PyValue.int 3)] ≠
      PyValue.dict [("line", PyValue.int 1), ("column", PyValue.int 1)] := by
  refine ⟨rfl, rfl, ?_⟩
  simp

/-- C8 (amended): set_cursor always sends exactly one set_cursor command
carrying the line, column and moveToPosition fields and returns the state
unchanged (in particular the current_cursor mirror is untouched); no other
encoder operation touches the cursor mirror either; and among the modelled
inbound dispatch names, only the cursor-changed event _current_cursor
(assigned by the setattr fallback, the remote editor being authoritative for
the cursor position) and constructor re-entry __init__ can change the cursor
mirror: dispatching any other modelled name leaves it unchanged, while the
inbound event (__init__, null) resets it to the default position. -/
theorem C8_cursor_mirror_routes (st : MonacoState) :
    (∀ line column mtp, set_cursor st line column mtp =
      Except.ok { state := st
                  commands := [⟨"set_cursor",
                    PyValue.dict [("line", line), ("column", column),
                                  ("moveToPosition", mtp)]⟩]
                  signals := []
                  warnings := [] }) ∧
    (∀ v, (effectOf (set_text st v) st).state.current_cursor = st.current_cursor) ∧
    (∀ t l c, (effectOf (insert_text st t l c) st).state.current_cursor =
      st.current_cursor) ∧
    (∀ l, (effectOf (delete_line st l) st).state.current_cursor = st.current_cursor) ∧
    (∀ v, (set_language st v).state.current_cursor = st.current_cursor) ∧
    (∀ v, (set_theme st v).state.current_cursor = st.current_cursor) ∧
    (∀ v, (set_readonly st v).state.current_cursor = st.current_cursor) ∧
    (∀ v, (set_minimap_enabled st v).state.current_cursor = st.current_cursor) ∧
    (∀ v, (set_vim_mode_enabled st v).state.current_cursor = st.current_cursor) ∧
    (∀ v, (effectOf (set_lsp_header st v) st).state.current_cursor =
      st.current_cursor) ∧
    (∀ a b, (set_highlighted_lines st a b).state.current_cursor = st.current_cursor) ∧
    (clear_highlighted_lines st).state.current_cursor = st.current_cursor ∧
    (∀ name value, name ∈ cursor_preserving_inbound_names →
      (effectOf (on_new_data_received st name value) st).state.current_cursor =
        st.current_cursor) ∧
    (effectOf (on_new_data_received st "__init__" "null") st).state.current_cursor =
      PyValue.dict [("line", PyValue.int 1), ("column", PyValue.int 1)] := by
  refine ⟨fun l c m => rfl, cursor_frame_set_text st, cursor_frame_insert_text st,
    cursor_frame_delete_line st, fun v => rfl, fun v => rfl, fun v => rfl,
    fun v => rfl, fun v => rfl, cursor_frame_set_lsp_header st, fun a b => rfl, rfl,
    ?_, rfl⟩
  intro name value hmem
  have hcc : name ≠ "_current_cursor" := by
    intro e
    subst e
    revert hmem
    decide
  have hii : name ≠ "__init__" := by
    intro e
    subst e
    revert hmem
    decide
  unfold on_new_data_received
  cases hj : json_loads value with
  | error e => simp [effectOf, Effect.pure]
  | ok data =>
    split
    · rename_i e heq
      exact Except.noConfusion heq
    · rename_i data2 heq
      injection heq with h2
      subst h2
      split
      all_goals
        first
          | exact absurd rfl hcc
          | exact absurd rfl hii
          | exact cursor_frame_set_text st data
          | exact cursor_frame_insert_text st data PyValue.none PyValue.none
          | exact cursor_frame_delete_line st data
          | exact cursor_frame_set_lsp_header st data
          | exact cursor_frame_set_cursor st data (PyValue.int 1) PyValue.none
          | simp [effectOf, Effect.pure, on_value_changed, cursor_frame_current_text,
              cursor_frame_bridge_initialized_set, set_language, set_minimap_enabled,
              set_theme, set_readonly, set_vim_mode_enabled, _set_host]

/-- C8 (witness for the dispatcher conjunct of the amended theorem) at the
constructed bridge and the inbound event (set_cursor, "5"). -/
theorem C8_routes_witness :
    ("set_cursor" : String) ∈ cursor_preserving_inbound_names ∧
    (effectOf (on_new_data_received initialState "set_cursor" "5")
        initialState).state.current_cursor = initialState.current_cursor := by
  have h := C8_cursor_mirror_routes initialState
  exact ⟨by decide,
    h.2.2.2.2.2.2.2.2.2.2.2.2.1 "set_cursor" "5" (by decide)⟩

/-- C9: inbound name resolution is open.  For every payload that json.loads
accepts, the dispatcher routes the event to any callable attribute of the
bridge whose name matches, including the public mutators set_text and
delete_line and the private helpers _current_text and _set_host, invoking it
with the decoded payload as its sole argument (further positional parameters
keep their Python defaults). -/
theorem C9_dispatch_reaches_any_callable (st : MonacoState) (value : String)
    (data : PyValue) (h : json_loads value = Except.ok data) :
    on_new_data_received st "set_text" value = set_text st data ∧
    on_new_data_received st "delete_line" value = delete_line st data ∧
    on_new_data_received st "insert_text" value =
      insert_text st data PyValue.none PyValue.none ∧
    on_new_data_received st "set_readonly" value = Except.ok (set_readonly st data) ∧
    on_new_data_received st "_current_text" value = Except.ok (_current_text st data) ∧
    on_new_data_received st "_set_host" value = Except.ok (_set_host st data) := by
  refine ⟨?_, ?_, ?_, ?_, ?_, ?_⟩ <;>
    · unfold on_new_data_received
      rw [h]
      rfl

/-- C9 (witness) at the constructed bridge and the payload string
literal for "hi". -/
theorem C9_witness :
    json_loads "\"hi\"" = Except.ok (PyValue.str "hi") ∧
    on_new_data_received initialState "set_text" "\"hi\"" =
      set_text initialState (PyValue.str "hi") ∧
    on_new_data_received initialState "delete_line" "\"hi\"" =
      delete_line initialState (PyValue.str "hi") := by
  have h := C9_dispatch_reaches_any_callable initialState "\"hi\""
    (PyValue.str "hi") (by rfl)
  exact ⟨by rfl, h.1, h.2.1⟩

/-- C10 (counterexample): the claim says only set_text and the inbound
on_value_changed event modify the text mirror.  On the constructed bridge,
the inbound event (_value, "\"hello\"") — resolved by the dynamic setattr
fallback of the dispatcher, not by set_text nor by on_value_changed — changes
the text mirror from the empty string to "hello" (without even emitting
text_changed). -/
theorem C10_cex_inbound_field_assignment :
    initialState.value = PyValue.str "" ∧
    on_new_data_received initialState "_value" "\"hello\"" =
      Except.ok (Effect.pure { initialState with value := PyValue.str "hello" }) ∧
    (effectOf (on_new_data_received initialState "_value" "\"hello\"")
        initialState).state.value = PyValue.str "hello" := by
  exact ⟨rfl, rfl, rfl⟩

/-- C10 (amended): insert_text and delete_line never change the text mirror,
whatever their arguments and whether or not the editor is readonly (on a
raise the state is untouched); the same holds for every other public encoder
operation except set_text; on the inbound path, however, on_value_changed is
not the only route to the mirror: dispatch also reaches it through the names
set_text, _current_text, the direct field assignment _value, and constructor
re-entry __init__ (which resets the mirror to the empty string); dispatching
any other modelled inbound name leaves the text mirror unchanged.  (Object
protocol names such as __dict__, whose assignment replaces the whole
instance dictionary, are outside the model and outside this statement.) -/
theorem C10_text_mirror_frame (st : MonacoState) :
    (∀ t l c, (effectOf (insert_text st t l c) st).state.value = st.value) ∧
    (∀ l, (effectOf (delete_line st l) st).state.value = st.value) ∧
    (∀ v, (set_language st v).state.value = st.value) ∧
    (∀ v, (set_theme st v).state.value = st.value) ∧
    (∀ v, (set_readonly st v).state.value = st.value) ∧
    (∀ l c m, (effectOf (set_cursor st l c m) st).state.value = st.value) ∧
    (∀ v, (set_minimap_enabled st v).state.value = st.value) ∧
    (∀ v, (set_vim_mode_enabled st v).state.value = st.value) ∧
    (∀ v, (effectOf (set_lsp_header st v) st).state.value = st.value) ∧
    (∀ a b, (set_highlighted_lines st a b).state.value = st.value) ∧
    (clear_highlighted_lines st).state.value = st.value ∧
    (∀ name value, name ∈ text_preserving_inbound_names →
      (effectOf (on_new_data_received st name value) st).state.value = st.value) ∧
    (effectOf (on_new_data_received st "__init__" "null") st).state.value =
      PyValue.str "" := by
  refine ⟨value_frame_insert_text st, value_frame_delete_line st, fun v => rfl,
    fun v => rfl, fun v => rfl, value_frame_set_cursor st, fun v => rfl, fun v => rfl,
    value_frame_set_lsp_header st, fun a b => rfl, rfl, ?_, rfl⟩
  intro name value hmem
  have h1 : name ≠ "set_text" := by
    intro e
    subst e
    revert hmem
    decide
  have h2 : name ≠ "on_value_changed" := by
    intro e
    subst e
    revert hmem
    decide
  have h3 : name ≠ "_current_text" := by
    intro e
    subst e
    revert hmem
    decide
  have h4 : name ≠ "_value" := by
    intro e
    subst e
    revert hmem
    decide
  have h6 : name ≠ "__init__" := by
    intro e
    subst e
    revert hmem
    decide
  unfold on_new_data_received
  cases hj : json_loads value with
  | error e => simp [effectOf, Effect.pure]
  | ok data =>
    split
    · rename_i e heq
      exact Except.noConfusion heq
    · rename_i data2 heq
      injection heq with h5
      subst h5
      split
      all_goals
        first
          | exact absurd rfl h1
          | exact absurd rfl h2
          | exact absurd rfl h3
          | exact absurd rfl h4
          | exact absurd rfl h6
          | exact value_frame_insert_text st data PyValue.none PyValue.none
          | exact value_frame_delete_line st data
          | exact value_frame_set_lsp_header st data
          | exact value_frame_set_cursor st data (PyValue.int 1) PyValue.none
          | simp [effectOf, Effect.pure, value_frame_bridge_initialized_set,
              set_language, set_minimap_enabled, set_theme, set_readonly,
              set_vim_mode_enabled, _set_host]

/-- C10 (witness for the dispatcher conjunct of the amended theorem) at the
constructed bridge and the inbound event (delete_line, "2"). -/
theorem C10_amended_witness :
    ("delete_line" : String) ∈ text_preserving_inbound_names ∧
    (effectOf (on_new_data_received initialState "delete_line" "2")
        initialState).state.value = initialState.value := by
  have h := C10_text_mirror_frame initialState
  exact ⟨by decide,
    h.2.2.2.2.2.2.2.2.2.2.2.1 "delete_line" "2" (by decide)⟩
